import Mathlib

/-! Shallow embedding of the request-orchestration core of cloudscraper v3
(`src/cloudscraper/__init__.py`): `CloudScraper.request`,
`CloudScraper._apply_request_throttling`,
`CloudScraper._clear_cloudflare_cookies` and the `source_address` validation
of `CipherSuiteAdapter.__init__`.

Modelling conventions:
 * Wall-clock values (Python floats from `time.time()`) are idealised as exact
   rationals, and `time.sleep` is assumed exact.
 * The five challenge classifiers and solvers live in modules outside the
   analysed file (`turnstile.py`, `cloudflare_v3.py`, ...); they are oracles
   here: classifier verdicts are carried as Boolean attributes of the response,
   the solvers as a function parameter of `request`.
 * `perform_request` (the network dispatch) is an input of `request`, given as
   a `DispatchOutcome`: a response, a `requests` proxy/connection error, or any
   other exception.
 * The pre-hook and the stealth-mode kwarg mutation only rewrite
   method/url/headers, none of which this state model tracks; the post-hook is
   modelled as an optional function on responses.
 * The concurrency busy-wait loop of `_apply_request_throttling` is modelled in
   single-flow semantics: it terminates exactly when
   `current_concurrent_requests < max_concurrent_requests` holds at entry
   (nothing can change the counter while the loop spins), so the throttle
   returns `none` (divergence) otherwise. -/

namespace Cloudscraper

/-- An HTTP response as seen by `CloudScraper.request`: the attributes the
orchestrator inspects, together with the verdicts of the five (external)
challenge classifiers on this response. -/
structure Response where
  is_redirect : Bool
  status_code : Nat
  turnstileMatch : Bool
  v3Match : Bool
  v2CaptchaMatch : Bool
  v2Match : Bool
  v1Match : Bool
deriving DecidableEq, Repr

/-- The five challenge variants, in the priority order of the dispatch chain
of `CloudScraper.request`. -/
inductive Variant
| turnstile
| v3
| v2captcha
| v2
| v1
deriving DecidableEq, Repr

/-- Outcome of `perform_request`: a response, a
`requests.exceptions.ProxyError`/`ConnectionError`, or any other exception. -/
inductive DispatchOutcome
| ok (r : Response)
| connError
| otherError
deriving DecidableEq, Repr

/-- Errors `CloudScraper.request` can raise in this model:
`CloudflareLoopProtection`, a re-raised proxy/connection error, or a re-raised
other dispatch exception. -/
inductive ReqError
| loopProtection
| connError
| otherError
deriving DecidableEq, Repr

/-- A report made to the Proxy Manager: `report_success(p)` or
`report_failure(p)`. -/
inductive PMEvent
| success (p : String)
| failure (p : String)
deriving DecidableEq, Repr

/-- The `CloudScraper` session state touched by `request`, with the
constructor defaults of `CloudScraper.__init__`. `solveDepthCnt` is
`_solveDepthCnt`, `retry403Count` is `_403_retry_count`, `in403Retry` is
`hasattr(self, '_in_403_retry')`; `pm_has_proxies` is the truthiness of
`self.proxy_manager.proxies` and `pm_next_proxy` the value
`self.proxy_manager.get_proxy()` would return. -/
structure Scraper where
  disableCloudflareV1 : Bool := false
  disableCloudflareV2 : Bool := false
  disableCloudflareV3 : Bool := false
  disableTurnstile : Bool := false
  solveDepth : Nat := 3
  solveDepthCnt : Nat := 0
  request_count : Nat := 0
  current_concurrent_requests : Int := 0
  max_concurrent_requests : Int := 1
  min_request_interval : ℚ := 1
  last_request_time : ℚ := 0
  retry403Count : Nat := 0
  in403Retry : Bool := false
  proxies : Option String := none
  pm_has_proxies : Bool := false
  pm_next_proxy : Option String := none
deriving DecidableEq, Repr

/-- The sleep performed by the minimum-interval wait of
`_apply_request_throttling`: `min_request_interval - time_since_last_request`
when less than the interval has elapsed, otherwise no sleep. -/
def throttleSleep (s : Scraper) (now : ℚ) : ℚ :=
  let timeSince := now - s.last_request_time
  if timeSince < s.min_request_interval then s.min_request_interval - timeSince
  else 0

/-- `CloudScraper._apply_request_throttling`, with `now` the value of
`time.time()` at entry. Returns the interval sleep performed and the state
with `last_request_time` recorded after the sleep, or `none` when the
concurrency busy-wait loop would spin forever (see the header comment). -/
def applyRequestThrottling (s : Scraper) (now : ℚ) : Option (ℚ × Scraper) :=
  if s.current_concurrent_requests < s.max_concurrent_requests then
    some (throttleSleep s now,
      { s with last_request_time := now + throttleSleep s now })
  else
    none

/-- Apply the optional `requestPostHook`: the code replaces the response by
the hook's result whenever the hook returns a different object, which is
semantically `response = hook(response)`. -/
def postApply (h : Option (Response → Response)) (r : Response) : Response :=
  match h with
  | some f => f r
  | none => r

/-- First enabled challenge variant whose classifier matches, in the fixed
order of the dispatch chain of `CloudScraper.request`: Turnstile, then v3
JS-VM, then v2 CAPTCHA, then v2 legacy JS, then v1 legacy. -/
def matchedVariant (s : Scraper) (r : Response) : Option Variant :=
  if !s.disableTurnstile && r.turnstileMatch then some .turnstile
  else if !s.disableCloudflareV3 && r.v3Match then some .v3
  else if !s.disableCloudflareV2 && r.v2CaptchaMatch then some .v2captcha
  else if !s.disableCloudflareV2 && r.v2Match then some .v2
  else if !s.disableCloudflareV1 && r.v1Match then some .v1
  else none

/-- The kwargs `proxies` value after the proxy-resolution block of
`CloudScraper.request` (`none` models an absent or falsy `proxies` entry):
when the caller supplied none and the Proxy Manager holds proxies, the
manager's pick is used. -/
def effectiveProxies (s : Scraper) (kwargsProxies : Option String) :
    Option String :=
  match kwargsProxies with
  | none => if s.pm_has_proxies then s.pm_next_proxy else none
  | some p => some p

/-- Session-state effect of the proxy-resolution block: a caller-supplied
proxies value that differs from `self.proxies` is stored on the session. -/
def resolveProxies (s : Scraper) (kwargsProxies : Option String) : Scraper :=
  match kwargsProxies with
  | some p => if s.proxies ≠ some p then { s with proxies := some p } else s
  | none => s

/-- Request metric tracking of `CloudScraper.request`:
`self.request_count += 1` and `self.current_concurrent_requests += 1`. -/
def trackMetrics (s : Scraper) : Scraper :=
  { s with
    request_count := s.request_count + 1,
    current_concurrent_requests := s.current_concurrent_requests + 1 }

/-- One `self.proxy_manager.report_*` call when a proxy is in use, none
otherwise. -/
def pmReport (f : String → PMEvent) : Option String → List PMEvent
  | some p => [f p]
  | none => []

/-- Result of the loop-protection check and challenge-dispatch chain of
`CloudScraper.request` on a successfully dispatched (and post-hooked)
response. -/
structure ChalOut where
  outcome : Except ReqError Response
  state : Scraper
  solvedVariant : Option Variant
deriving Repr

/-- Lines 344-382 of `CloudScraper.request`: the loop-protection check
(`simpleException` resets `_solveDepthCnt` to 0 and raises
`CloudflareLoopProtection`), then the five-way challenge chain (each branch
increments `_solveDepthCnt` and returns the solver's result directly), then
the depth reset on a non-redirect non-429/503 pass-through response (plus the
guarded 403-retry-count reset on a 200). -/
def challengePhase (solve : Variant → Response → Response) (s : Scraper)
    (r : Response) : ChalOut :=
  if s.solveDepth ≤ s.solveDepthCnt then
    ⟨.error .loopProtection, { s with solveDepthCnt := 0 }, none⟩
  else if !s.disableTurnstile && r.turnstileMatch then
    ⟨.ok (solve .turnstile r),
      { s with solveDepthCnt := s.solveDepthCnt + 1 }, some .turnstile⟩
  else if !s.disableCloudflareV3 && r.v3Match then
    ⟨.ok (solve .v3 r),
      { s with solveDepthCnt := s.solveDepthCnt + 1 }, some .v3⟩
  else if !s.disableCloudflareV2 && r.v2CaptchaMatch then
    ⟨.ok (solve .v2captcha r),
      { s with solveDepthCnt := s.solveDepthCnt + 1 }, some .v2captcha⟩
  else if !s.disableCloudflareV2 && r.v2Match then
    ⟨.ok (solve .v2 r),
      { s with solveDepthCnt := s.solveDepthCnt + 1 }, some .v2⟩
  else if !s.disableCloudflareV1 && r.v1Match then
    ⟨.ok (solve .v1 r),
      { s with solveDepthCnt := s.solveDepthCnt + 1 }, some .v1⟩
  else
    let s1 :=
      if !r.is_redirect && r.status_code != 429 && r.status_code != 503 then
        let s0 := { s with solveDepthCnt := 0 }
        if r.status_code == 200 && !s0.in403Retry then
          { s0 with retry403Count := 0 }
        else s0
      else s
    ⟨.ok r, s1, none⟩

/-- Result of the `try` body of `CloudScraper.request`. -/
structure CoreOut where
  outcome : Except ReqError Response
  state : Scraper
  events : List PMEvent
  solvedVariant : Option Variant
deriving Repr

/-- The `try` body of `CloudScraper.request` after metric tracking: dispatch
(with success reported to the Proxy Manager when a proxy is in use), the
`except` clause for proxy/connection errors (failure reported when a proxy is
in use, then re-raise), other exceptions propagating unreported, then the
post-hook and `challengePhase`. -/
def requestCore (s : Scraper) (prox : Option String) (dres : DispatchOutcome)
    (postHook : Option (Response → Response))
    (solve : Variant → Response → Response) : CoreOut :=
  match dres with
  | .connError => ⟨.error .connError, s, pmReport PMEvent.failure prox, none⟩
  | .otherError => ⟨.error .otherError, s, [], none⟩
  | .ok r0 =>
    let c := challengePhase solve s (postApply postHook r0)
    ⟨c.outcome, c.state, pmReport PMEvent.success prox, c.solvedVariant⟩

/-- The `finally` block of `CloudScraper.request`: decrement
`current_concurrent_requests`, guarded by `> 0`. -/
def finallyDecrement (s : Scraper) : Scraper :=
  if 0 < s.current_concurrent_requests then
    { s with
      current_concurrent_requests := s.current_concurrent_requests - 1 }
  else s

/-- Observable result of one `CloudScraper.request` call: the returned
response or raised error, the final session state, whether the throttle ran
and the interval sleep it performed, which solver (if any) was invoked, the
Proxy Manager reports made, and the in-flight counter value while the
dispatch ran. -/
structure ReqResult where
  outcome : Except ReqError Response
  state : Scraper
  throttled : Bool
  sleepTime : ℚ
  solvedVariant : Option Variant
  pmEvents : List PMEvent
  inflightDuring : Int
deriving Repr

/-- `CloudScraper.request` for one call. `kwargsProxies` is
`kwargs['proxies']` (`none` if absent or falsy), `skipThrottle` the popped
`_skip_throttle` flag, `now` the wall clock at entry, `dres` the outcome of
`perform_request`, `postHook` the optional `requestPostHook` and `solve` the
external challenge solvers. `none` models the call hanging in the throttle's
busy-wait. -/
def request (s : Scraper) (kwargsProxies : Option String) (skipThrottle : Bool)
    (now : ℚ) (dres : DispatchOutcome)
    (postHook : Option (Response → Response))
    (solve : Variant → Response → Response) : Option ReqResult :=
  let isNested : Bool := decide (0 < s.current_concurrent_requests)
  let doThrottle : Bool := !skipThrottle && !isNested
  (if doThrottle then applyRequestThrottling s now else some (0, s)).map
    (fun p =>
      let s3 := trackMetrics (resolveProxies p.2 kwargsProxies)
      let core := requestCore s3 (effectiveProxies p.2 kwargsProxies) dres
        postHook solve
      ⟨core.outcome, finallyDecrement core.state, doThrottle, p.1,
        core.solvedVariant, core.events, s3.current_concurrent_requests⟩)

/-- A pass-through response: no classifier matches, not a redirect,
status 200. -/
def passResp : Response := ⟨false, 200, false, false, false, false, false⟩

/-- A response matching the Turnstile classifier. -/
def chalResp : Response := ⟨false, 403, true, false, false, false, false⟩

/-- Placeholder result used as `Option.getD` default when naming the result
of a concrete `request` run. -/
def emptyResult : ReqResult := ⟨.error .otherError, {}, false, 0, none, [], 0⟩

/-- A session whose depth counter has reached the default solve-depth
limit. -/
def scraperAtLimit : Scraper := { solveDepthCnt := 3 }

/-- A session mid-way through challenge solving (depth 2 of limit 3). -/
def scraperMid : Scraper := { solveDepthCnt := 2 }

/-- A session with one request already in flight (the state a nested solver
call observes). -/
def scraperNested : Scraper := { current_concurrent_requests := 1 }

/-- Concrete run: at the depth limit, throttle suppressed, pass response. -/
def runAtLimit : ReqResult :=
  (request scraperAtLimit none true 0 (.ok passResp) none
    (fun _ r => r)).getD emptyResult

/-- Concrete run: depth 2, throttle suppressed, pass response. -/
def runPass : ReqResult :=
  (request scraperMid none true 0 (.ok passResp) none
    (fun _ r => r)).getD emptyResult

/-- Concrete run: fresh session, throttle suppressed, Turnstile response. -/
def runChal : ReqResult :=
  (request ({} : Scraper) none true 0 (.ok chalResp) none
    (fun _ r => r)).getD emptyResult

/-- Concrete run: fresh session, top-level throttled call at time 5. -/
def runTop : ReqResult :=
  (request ({} : Scraper) none false 5 (.ok passResp) none
    (fun _ r => r)).getD emptyResult

/-- Concrete run: nested call (one request already in flight). -/
def runNested : ReqResult :=
  (request scraperNested none false 0 (.ok passResp) none
    (fun _ r => r)).getD emptyResult

/-- Concrete run: a proxied dispatch failing with a connection error. -/
def runConnErr : ReqResult :=
  (request ({} : Scraper) (some "http://proxy:8080") true 0 .connError none
    (fun _ r => r)).getD emptyResult

/-- One entry of the session cookie jar, keyed like
`http.cookiejar.CookieJar`: domain, path and name. -/
structure Cookie where
  domain : String
  path : String
  name : String
  value : String
deriving DecidableEq, Repr

/-- `self.cookies.list_domains()`: each domain present in the jar, once. -/
def list_domains (jar : List Cookie) : List String :=
  (jar.map Cookie.domain).dedup

/-- `self.cookies.clear(domain, path, name)`: removes the cookie matching
exactly that domain, path and name (the `KeyError` raised when there is no
such cookie is swallowed by the caller's bare `except`). -/
def jarClear (jar : List Cookie) (domain path name : String) : List Cookie :=
  jar.filter fun c =>
    !(c.domain == domain && c.path == path && c.name == name)

/-- The fixed protection-cookie name set of
`CloudScraper._clear_cloudflare_cookies`. -/
def cf_cookie_names : List String :=
  ["cf_clearance", "cf_chl_2", "cf_chl_prog", "cf_chl_rc_ni", "cf_turnstile",
   "__cf_bm"]

/-- `CloudScraper._clear_cloudflare_cookies`: for each protection cookie
name, for each domain currently in the jar, `self.cookies.clear(domain, '/',
cookie_name)`. -/
def clear_cloudflare_cookies (jar : List Cookie) : List Cookie :=
  cf_cookie_names.foldl
    (fun j n => (list_domains j).foldl (fun j2 d => jarClear j2 d "/" n) j)
    jar

/-- A Python value in the positions `source_address` can take: `None`, a
string, an int, or a tuple. -/
inductive PyVal
| vNone
| vStr (s : String)
| vInt (n : Int)
| vTuple (elems : List PyVal)
deriving Repr

/-- Python truthiness on `PyVal`: `None`, `''`, `0` and `()` are falsy. -/
def pyTruthy : PyVal → Bool
  | .vNone => false
  | .vStr s => !(s == "")
  | .vInt n => !(n == 0)
  | .vTuple es => !es.isEmpty

/-- `isinstance(v, str)`. -/
def PyVal.isStr : PyVal → Bool
  | .vStr _ => true
  | _ => false

/-- `isinstance(v, tuple)`. -/
def PyVal.isTuple : PyVal → Bool
  | .vTuple _ => true
  | _ => false

/-- The `source_address` handling of `CipherSuiteAdapter.__init__`: when the
value is truthy, a string is first replaced by `(value, 0)`, and then any
non-tuple raises `TypeError`; a falsy value skips the whole block. -/
def initSourceAddress (v : PyVal) : Except String PyVal :=
  if pyTruthy v then
    let v1 := match v with
      | .vStr s => PyVal.vTuple [PyVal.vStr s, PyVal.vInt 0]
      | w => w
    if v1.isTuple then .ok v1
    else .error "source_address must be IP address string or (ip, port) tuple"
  else .ok v

/-- Whether `initSourceAddress` raised. -/
def isErrorSA : Except String PyVal → Bool
  | .error _ => true
  | .ok _ => false

/-- The shapes the specification calls recognized: an address string, or an
address-plus-port pair. -/
def specRecognizedShape : PyVal → Bool
  | .vStr _ => true
  | .vTuple [PyVal.vStr _, PyVal.vInt _] => true
  | _ => false

/-- The proxy-resolution block is the identity when the caller supplied no
proxies value. -/
theorem resolveProxies_none (s : Scraper) : resolveProxies s none = s := rfl

/-- The proxy-resolution block stores a caller-supplied proxies value on the
session. -/
theorem resolveProxies_some (s : Scraper) (p : String) :
    resolveProxies s (some p) = { s with proxies := some p } := by
  show (if s.proxies ≠ some p then { s with proxies := some p } else s) = _
  split
  · rfl
  · rename_i h
    rw [not_ne_iff] at h
    show s = { s with proxies := some p }
    rw [← h]

/-- Whatever the throttle step of `request` does, the state it hands on
agrees with the entry state on every field except `last_request_time`. -/
theorem throttle_ite_inv (s : Scraper) (d : Bool) (now slp : ℚ) (s1 : Scraper)
    (h : (if d then applyRequestThrottling s now else some (0, s)) =
      some (slp, s1)) :
    s1 = { s with last_request_time := s1.last_request_time } := by
  cases d with
  | false =>
    simp only [Bool.false_eq_true, if_false, Option.some.injEq, Prod.mk.injEq]
      at h
    rw [← h.2]
  | true =>
    simp only [if_true] at h
    unfold applyRequestThrottling at h
    split at h
    · simp only [Option.some.injEq, Prod.mk.injEq] at h
      rw [← h.2]
    · exact absurd h (by simp)

/-- Inversion of `request`: a terminating call is the throttle step followed
by proxy resolution, metric tracking, the core, and the `finally` block. -/
theorem request_inv (s : Scraper) (kp : Option String) (skip : Bool) (now : ℚ)
    (dres : DispatchOutcome) (ph : Option (Response → Response))
    (solve : Variant → Response → Response) (res : ReqResult)
    (hr : request s kp skip now dres ph solve = some res) :
    ∃ slp : ℚ, ∃ s1 : Scraper,
      (if (!skip && !(decide (0 < s.current_concurrent_requests)))
        then applyRequestThrottling s now else some (0, s)) = some (slp, s1) ∧
      res =
        ⟨(requestCore (trackMetrics (resolveProxies s1 kp))
            (effectiveProxies s1 kp) dres ph solve).outcome,
         finallyDecrement (requestCore (trackMetrics (resolveProxies s1 kp))
            (effectiveProxies s1 kp) dres ph solve).state,
         (!skip && !(decide (0 < s.current_concurrent_requests))), slp,
         (requestCore (trackMetrics (resolveProxies s1 kp))
            (effectiveProxies s1 kp) dres ph solve).solvedVariant,
         (requestCore (trackMetrics (resolveProxies s1 kp))
            (effectiveProxies s1 kp) dres ph solve).events,
         (trackMetrics (resolveProxies s1 kp)).current_concurrent_requests⟩ := by
  unfold request at hr
  rw [Option.map_eq_some'] at hr
  obtain ⟨p, hp, hres⟩ := hr
  exact ⟨p.1, p.2, hp, hres.symm⟩

/-- The loop-protection branch of the challenge phase. -/
theorem challengePhase_loop (solve : Variant → Response → Response)
    (s : Scraper) (r : Response) (h : s.solveDepth ≤ s.solveDepthCnt) :
    challengePhase solve s r =
      ⟨.error .loopProtection, { s with solveDepthCnt := 0 }, none⟩ := by
  unfold challengePhase
  rw [if_pos h]

/-- Below the depth limit, the challenge phase on a response whose first
enabled match is `v` invokes exactly that solver, increments the depth by
one, and returns the solver's result. -/
theorem challengePhase_match (solve : Variant → Response → Response)
    (s : Scraper) (r : Response) (v : Variant)
    (hd : s.solveDepthCnt < s.solveDepth) (hm : matchedVariant s r = some v) :
    challengePhase solve s r =
      ⟨.ok (solve v r), { s with solveDepthCnt := s.solveDepthCnt + 1 },
        some v⟩ := by
  unfold challengePhase
  rw [if_neg (Nat.not_le.mpr hd)]
  unfold matchedVariant at hm
  by_cases h1 : (!s.disableTurnstile && r.turnstileMatch) = true
  · rw [if_pos h1] at hm ⊢
    cases hm
    rfl
  · rw [if_neg h1] at hm ⊢
    by_cases h2 : (!s.disableCloudflareV3 && r.v3Match) = true
    · rw [if_pos h2] at hm ⊢
      cases hm
      rfl
    · rw [if_neg h2] at hm ⊢
      by_cases h3 : (!s.disableCloudflareV2 && r.v2CaptchaMatch) = true
      · rw [if_pos h3] at hm ⊢
        cases hm
        rfl
      · rw [if_neg h3] at hm ⊢
        by_cases h4 : (!s.disableCloudflareV2 && r.v2Match) = true
        · rw [if_pos h4] at hm ⊢
          cases hm
          rfl
        · rw [if_neg h4] at hm ⊢
          by_cases h5 : (!s.disableCloudflareV1 && r.v1Match) = true
          · rw [if_pos h5] at hm ⊢
            cases hm
            rfl
          · rw [if_neg h5] at hm
            exact absurd hm (by simp)

/-- On a pass-through response (no enabled match, not a redirect, status not
429/503) the challenge phase leaves the depth counter at zero, and below the
depth limit it returns the response unchanged with no solver invoked. -/
theorem challengePhase_pass (solve : Variant → Response → Response)
    (s : Scraper) (r : Response) (hm : matchedVariant s r = none)
    (hred : r.is_redirect = false) (h429 : ¬ r.status_code = 429)
    (h503 : ¬ r.status_code = 503) :
    (challengePhase solve s r).state.solveDepthCnt = 0 ∧
    (s.solveDepthCnt < s.solveDepth →
      (challengePhase solve s r).outcome = .ok r ∧
      (challengePhase solve s r).solvedVariant = none) := by
  have hcond :
      (!r.is_redirect && r.status_code != 429 && r.status_code != 503)
        = true := by
    simp [hred, h429, h503]
  unfold matchedVariant at hm
  by_cases hl : s.solveDepth ≤ s.solveDepthCnt
  · rw [challengePhase_loop solve s r hl]
    exact ⟨rfl, fun hd => absurd hl (Nat.not_le.mpr hd)⟩
  · unfold challengePhase
    rw [if_neg hl]
    by_cases h1 : (!s.disableTurnstile && r.turnstileMatch) = true
    · rw [if_pos h1] at hm
      exact absurd hm (by simp)
    · rw [if_neg h1] at hm ⊢
      by_cases h2 : (!s.disableCloudflareV3 && r.v3Match) = true
      · rw [if_pos h2] at hm
        exact absurd hm (by simp)
      · rw [if_neg h2] at hm ⊢
        by_cases h3 : (!s.disableCloudflareV2 && r.v2CaptchaMatch) = true
        · rw [if_pos h3] at hm
          exact absurd hm (by simp)
        · rw [if_neg h3] at hm ⊢
          by_cases h4 : (!s.disableCloudflareV2 && r.v2Match) = true
          · rw [if_pos h4] at hm
            exact absurd hm (by simp)
          · rw [if_neg h4] at hm ⊢
            by_cases h5 : (!s.disableCloudflareV1 && r.v1Match) = true
            · rw [if_pos h5] at hm
              exact absurd hm (by simp)
            · rw [if_neg h5]
              refine ⟨?_, fun _ => ⟨rfl, rfl⟩⟩
              show (if (!r.is_redirect && r.status_code != 429
                  && r.status_code != 503) = true then _ else _ :
                    Scraper).solveDepthCnt = 0
              rw [if_pos hcond]
              split <;> rfl

/-- The challenge phase never touches the in-flight counter nor the recorded
dispatch time. -/
theorem challengePhase_frame (solve : Variant → Response → Response)
    (s : Scraper) (r : Response) :
    (challengePhase solve s r).state.current_concurrent_requests =
      s.current_concurrent_requests ∧
    (challengePhase solve s r).state.last_request_time =
      s.last_request_time := by
  unfold challengePhase
  dsimp only
  split_ifs <;> exact ⟨rfl, rfl⟩

/-- The core on a successful dispatch is the post-hook followed by the
challenge phase, with a success report when a proxy is in use. -/
theorem requestCore_ok (s : Scraper) (prox : Option String) (r0 : Response)
    (ph : Option (Response → Response))
    (solve : Variant → Response → Response) :
    requestCore s prox (.ok r0) ph solve =
      ⟨(challengePhase solve s (postApply ph r0)).outcome,
       (challengePhase solve s (postApply ph r0)).state,
       pmReport PMEvent.success prox,
       (challengePhase solve s (postApply ph r0)).solvedVariant⟩ := rfl

/-- The core never touches the in-flight counter nor the recorded dispatch
time. -/
theorem requestCore_frame (s : Scraper) (prox : Option String)
    (dres : DispatchOutcome) (ph : Option (Response → Response))
    (solve : Variant → Response → Response) :
    (requestCore s prox dres ph solve).state.current_concurrent_requests =
      s.current_concurrent_requests ∧
    (requestCore s prox dres ph solve).state.last_request_time =
      s.last_request_time := by
  cases dres with
  | ok r0 => exact challengePhase_frame solve s (postApply ph r0)
  | connError => exact ⟨rfl, rfl⟩
  | otherError => exact ⟨rfl, rfl⟩

/-- The `finally` block only touches the in-flight counter. -/
theorem finallyDecrement_frame (s : Scraper) :
    (finallyDecrement s).solveDepthCnt = s.solveDepthCnt ∧
    (finallyDecrement s).last_request_time = s.last_request_time := by
  unfold finallyDecrement
  split <;> exact ⟨rfl, rfl⟩

/-- Fields of the state reaching the `try` body of `request`, in terms of the
entry state: proxy resolution and metric tracking preserve everything except
`proxies`, `request_count` and the incremented in-flight counter; the
throttle step only changed `last_request_time`. -/
theorem stage_fields (s s1 : Scraper) (kp : Option String)
    (hs1 : s1 = { s with last_request_time := s1.last_request_time }) :
    (trackMetrics (resolveProxies s1 kp)).solveDepth = s.solveDepth ∧
    (trackMetrics (resolveProxies s1 kp)).solveDepthCnt = s.solveDepthCnt ∧
    (trackMetrics (resolveProxies s1 kp)).disableTurnstile
      = s.disableTurnstile ∧
    (trackMetrics (resolveProxies s1 kp)).disableCloudflareV3
      = s.disableCloudflareV3 ∧
    (trackMetrics (resolveProxies s1 kp)).disableCloudflareV2
      = s.disableCloudflareV2 ∧
    (trackMetrics (resolveProxies s1 kp)).disableCloudflareV1
      = s.disableCloudflareV1 ∧
    (trackMetrics (resolveProxies s1 kp)).current_concurrent_requests
      = s.current_concurrent_requests + 1 ∧
    (trackMetrics (resolveProxies s1 kp)).last_request_time
      = s1.last_request_time := by
  rw [hs1]
  cases kp with
  | none => exact ⟨rfl, rfl, rfl, rfl, rfl, rfl, rfl, rfl⟩
  | some p =>
    rw [resolveProxies_some]
    exact ⟨rfl, rfl, rfl, rfl, rfl, rfl, rfl, rfl⟩

/-- The first enabled match depends only on the four disable flags of the
session, which no stage of `request` alters. -/
theorem matchedVariant_flags (s t : Scraper) (r : Response)
    (h1 : s.disableTurnstile = t.disableTurnstile)
    (h2 : s.disableCloudflareV3 = t.disableCloudflareV3)
    (h3 : s.disableCloudflareV2 = t.disableCloudflareV2)
    (h4 : s.disableCloudflareV1 = t.disableCloudflareV1) :
    matchedVariant s r = matchedVariant t r := by
  unfold matchedVariant
  rw [h1, h2, h3, h4]

/-- C1: a call to `CloudScraper.request` on a session whose challenge
recursion depth counter is at or above the configured solve-depth limit,
once dispatch and the optional post-hook have completed, raises
`CloudflareLoopProtection` and — as part of `simpleException` — resets the
depth counter to zero. -/
theorem loop_protection_resets_depth (s : Scraper) (kp : Option String)
    (skip : Bool) (now : ℚ) (r0 : Response)
    (ph : Option (Response → Response))
    (solve : Variant → Response → Response) (res : ReqResult)
    (hd : s.solveDepth ≤ s.solveDepthCnt)
    (hr : request s kp skip now (.ok r0) ph solve = some res) :
    res.outcome = .error .loopProtection ∧ res.state.solveDepthCnt = 0 := by
  obtain ⟨slp, s1, hthr, hres⟩ := request_inv _ _ _ _ _ _ _ _ hr
  obtain ⟨hf1, hf2, -, -, -, -, -, -⟩ :=
    stage_fields s s1 kp (throttle_ite_inv _ _ _ _ _ hthr)
  have hloop := challengePhase_loop solve (trackMetrics (resolveProxies s1 kp))
    (postApply ph r0) (by rw [hf1, hf2]; exact hd)
  subst hres
  refine ⟨?_, ?_⟩
  · show (requestCore _ _ _ _ _).outcome = _
    rw [requestCore_ok, hloop]
  · show (finallyDecrement (requestCore _ _ _ _ _).state).solveDepthCnt = 0
    rw [(finallyDecrement_frame _).1, requestCore_ok, hloop]

/-- C2: a dispatched (and post-hooked) response matching no enabled
challenge variant that is not a redirect and whose status is neither 429 nor
503 makes `CloudScraper.request` reset the depth counter to zero whatever
its prior value, and — when the call is below the solve-depth limit — the
response is returned to the caller unchanged. -/
theorem pass_through_resets_depth (s : Scraper) (kp : Option String)
    (skip : Bool) (now : ℚ) (r0 : Response)
    (ph : Option (Response → Response))
    (solve : Variant → Response → Response) (res : ReqResult)
    (hm : matchedVariant s (postApply ph r0) = none)
    (hred : (postApply ph r0).is_redirect = false)
    (h429 : ¬ (postApply ph r0).status_code = 429)
    (h503 : ¬ (postApply ph r0).status_code = 503)
    (hr : request s kp skip now (.ok r0) ph solve = some res) :
    res.state.solveDepthCnt = 0 ∧
    (s.solveDepthCnt < s.solveDepth →
      res.outcome = .ok (postApply ph r0)) := by
  obtain ⟨slp, s1, hthr, hres⟩ := request_inv _ _ _ _ _ _ _ _ hr
  obtain ⟨hf1, hf2, hf3, hf4, hf5, hf6, -, -⟩ :=
    stage_fields s s1 kp (throttle_ite_inv _ _ _ _ _ hthr)
  have hm3 : matchedVariant (trackMetrics (resolveProxies s1 kp))
      (postApply ph r0) = none := by
    rw [matchedVariant_flags _ s _ hf3 hf4 hf5 hf6]
    exact hm
  obtain ⟨hp1, hp2⟩ := challengePhase_pass solve
    (trackMetrics (resolveProxies s1 kp)) (postApply ph r0) hm3 hred h429 h503
  subst hres
  refine ⟨?_, fun hlt => ?_⟩
  · show (finallyDecrement (requestCore _ _ _ _ _).state).solveDepthCnt = 0
    rw [(finallyDecrement_frame _).1, requestCore_ok]
    exact hp1
  · show (requestCore _ _ _ _ _).outcome = _
    rw [requestCore_ok]
    exact (hp2 (by rw [hf1, hf2]; exact hlt)).1

/-- C3: below the solve-depth limit, `CloudScraper.request` classifies the
dispatched (and post-hooked) response against the enabled variants in the
fixed order Turnstile, v3 JS-VM, v2 CAPTCHA, v2 legacy JS, v1 legacy
redirect; only the first matching variant's solver is invoked, the depth
counter having been incremented by exactly one first, and the solver's
result is returned directly. -/
theorem first_match_invokes_solver (s : Scraper) (kp : Option String)
    (skip : Bool) (now : ℚ) (r0 : Response)
    (ph : Option (Response → Response))
    (solve : Variant → Response → Response) (res : ReqResult) (v : Variant)
    (hd : s.solveDepthCnt < s.solveDepth)
    (hm : matchedVariant s (postApply ph r0) = some v)
    (hr : request s kp skip now (.ok r0) ph solve = some res) :
    res.outcome = .ok (solve v (postApply ph r0)) ∧
    res.solvedVariant = some v ∧
    res.state.solveDepthCnt = s.solveDepthCnt + 1 := by
  obtain ⟨slp, s1, hthr, hres⟩ := request_inv _ _ _ _ _ _ _ _ hr
  obtain ⟨hf1, hf2, hf3, hf4, hf5, hf6, -, -⟩ :=
    stage_fields s s1 kp (throttle_ite_inv _ _ _ _ _ hthr)
  have hm3 : matchedVariant (trackMetrics (resolveProxies s1 kp))
      (postApply ph r0) = some v := by
    rw [matchedVariant_flags _ s _ hf3 hf4 hf5 hf6]
    exact hm
  have hmatch := challengePhase_match solve
    (trackMetrics (resolveProxies s1 kp)) (postApply ph r0) v
    (by rw [hf1, hf2]; exact hd) hm3
  subst hres
  refine ⟨?_, ?_, ?_⟩
  · show (requestCore _ _ _ _ _).outcome = _
    rw [requestCore_ok, hmatch]
  · show (requestCore _ _ _ _ _).solvedVariant = _
    rw [requestCore_ok, hmatch]
  · show (finallyDecrement (requestCore _ _ _ _ _).state).solveDepthCnt = _
    rw [(finallyDecrement_frame _).1, requestCore_ok, hmatch]
    show (trackMetrics (resolveProxies s1 kp)).solveDepthCnt + 1 = _
    rw [hf2]

/-- Every terminating `request` call increments the in-flight counter by one
before dispatch and the guarded decrement of the `finally` block undoes it,
so the counter during dispatch is one above the entry value and the final
counter equals the entry value. -/
theorem request_counter_balance (s : Scraper) (kp : Option String)
    (skip : Bool) (now : ℚ) (dres : DispatchOutcome)
    (ph : Option (Response → Response))
    (solve : Variant → Response → Response) (res : ReqResult)
    (h0 : 0 ≤ s.current_concurrent_requests)
    (hr : request s kp skip now dres ph solve = some res) :
    res.state.current_concurrent_requests = s.current_concurrent_requests ∧
    res.inflightDuring = s.current_concurrent_requests + 1 := by
  obtain ⟨slp, s1, hthr, hres⟩ := request_inv _ _ _ _ _ _ _ _ hr
  obtain ⟨-, -, -, -, -, -, hcur, -⟩ :=
    stage_fields s s1 kp (throttle_ite_inv _ _ _ _ _ hthr)
  have hc := (requestCore_frame (trackMetrics (resolveProxies s1 kp))
    (effectiveProxies s1 kp) dres ph solve).1
  subst hres
  refine ⟨?_, hcur⟩
  show (finallyDecrement
    (requestCore _ _ _ _ _).state).current_concurrent_requests = _
  unfold finallyDecrement
  split
  · show (requestCore _ _ _ _ _).state.current_concurrent_requests - 1 = _
    rw [hc, hcur]
    omega
  · rename_i hneg
    rw [hc, hcur] at hneg
    omega

/-- C4 (amended): the in-flight counter is incremented before dispatch and
decremented on every exit path, so each terminating call leaves the counter
exactly as it found it (hence 0 once all calls complete); for a top-level
non-suppressed call the throttle additionally guarantees the counter during
dispatch stays within `max_concurrent_requests`. (The original ceiling claim
for all calls fails: see the counterexample.) -/
theorem inflight_counter_accounting (s : Scraper) (kp : Option String)
    (skip : Bool) (now : ℚ) (dres : DispatchOutcome)
    (ph : Option (Response → Response))
    (solve : Variant → Response → Response) (res : ReqResult)
    (h0 : 0 ≤ s.current_concurrent_requests)
    (hr : request s kp skip now dres ph solve = some res) :
    res.inflightDuring = s.current_concurrent_requests + 1 ∧
    res.state.current_concurrent_requests = s.current_concurrent_requests ∧
    (skip = false → s.current_concurrent_requests = 0 →
      res.inflightDuring ≤ s.max_concurrent_requests) := by
  obtain ⟨hbal, hdur⟩ :=
    request_counter_balance s kp skip now dres ph solve res h0 hr
  refine ⟨hdur, hbal, fun hskip hzero => ?_⟩
  obtain ⟨slp, s1, hthr, -⟩ := request_inv _ _ _ _ _ _ _ _ hr
  subst hskip
  rw [hzero] at hthr
  simp only [Bool.not_false, Bool.true_and, decide_eq_true_eq,
    Int.lt_irrefl, not_false_eq_true, decide_eq_false, Bool.not_false,
    if_pos] at hthr
  have hlt : s.current_concurrent_requests < s.max_concurrent_requests := by
    unfold applyRequestThrottling at hthr
    split at hthr
    · assumption
    · exact absurd hthr (by simp)
  rw [hdur, hzero]
  rw [hzero] at hlt
  omega

/-- C4 counterexample: a nested call (one request already in flight, the
state a solver re-entry observes) on a default session pushes the in-flight
counter to 2 during dispatch, above the configured
`max_concurrent_requests = 1` ceiling. -/
theorem inflight_ceiling_counterexample :
    (request scraperNested none false 0 (.ok passResp) none
        (fun _ r => r)).map ReqResult.inflightDuring = some 2 ∧
    scraperNested.max_concurrent_requests = 1 := ⟨rfl, rfl⟩

/-- C5: `request` runs the throttle exactly when the call is top-level (no
request in flight on the session) and `_skip_throttle` was not passed; a
nested call is never throttled and in particular never records a new
dispatch time. -/
theorem throttle_iff_top_level (s : Scraper) (kp : Option String)
    (skip : Bool) (now : ℚ) (dres : DispatchOutcome)
    (ph : Option (Response → Response))
    (solve : Variant → Response → Response) (res : ReqResult)
    (hr : request s kp skip now dres ph solve = some res) :
    (res.throttled = true ↔
      (skip = false ∧ s.current_concurrent_requests ≤ 0)) ∧
    (0 < s.current_concurrent_requests →
      res.state.last_request_time = s.last_request_time) := by
  obtain ⟨slp, s1, hthr, hres⟩ := request_inv _ _ _ _ _ _ _ _ hr
  subst hres
  constructor
  · show (!skip && !(decide (0 < s.current_concurrent_requests))) = true ↔ _
    cases skip <;> simp [Int.not_lt]
  · intro hn
    have hd : (!skip && !(decide (0 < s.current_concurrent_requests)))
        = false := by
      simp [hn]
    rw [hd] at hthr
    simp only [Bool.false_eq_true, if_false, Option.some.injEq,
      Prod.mk.injEq] at hthr
    obtain ⟨-, h2⟩ := hthr
    subst h2
    show (finallyDecrement (requestCore _ _ _ _ _).state).last_request_time
      = _
    rw [(finallyDecrement_frame _).2, (requestCore_frame _ _ _ _ _).2]
    exact (stage_fields s s kp rfl).2.2.2.2.2.2.2

/-- C6: the throttle (when its busy-wait terminates) enforces the minimum
spacing: the recorded dispatch time advances by at least
`min_request_interval` over the previously recorded one, the sleep is
exactly the remaining difference whenever less than the interval has
elapsed, and the new dispatch time is recorded after the sleep. -/
theorem throttle_min_spacing (s : Scraper) (now : ℚ)
    (hc : s.current_concurrent_requests < s.max_concurrent_requests) :
    ∃ p : ℚ × Scraper, applyRequestThrottling s now = some p ∧
      s.min_request_interval ≤ p.2.last_request_time - s.last_request_time ∧
      (now - s.last_request_time < s.min_request_interval →
        p.1 = s.min_request_interval - (now - s.last_request_time)) ∧
      p.2.last_request_time = now + p.1 := by
  refine ⟨(throttleSleep s now,
    { s with last_request_time := now + throttleSleep s now }), ?_, ?_, ?_,
    rfl⟩
  · unfold applyRequestThrottling
    rw [if_pos hc]
  · show s.min_request_interval ≤
      (now + throttleSleep s now) - s.last_request_time
    unfold throttleSleep
    dsimp only
    split
    · linarith
    · rename_i h
      rw [not_lt] at h
      linarith
  · intro hlt
    show throttleSleep s now = _
    unfold throttleSleep
    dsimp only
    rw [if_pos hlt]

/-- C7: a proxy/connection failure of the dispatch is reported to the Proxy
Manager exactly when a proxy is in use and the error is re-raised with no
retry; a successful dispatch reports a success to the Proxy Manager if and
only if a proxy is in use. -/
theorem proxy_reporting (s : Scraper) (kp : Option String) (skip : Bool)
    (now : ℚ) (dres : DispatchOutcome) (ph : Option (Response → Response))
    (solve : Variant → Response → Response) (res : ReqResult)
    (hr : request s kp skip now dres ph solve = some res) :
    (dres = .connError →
      res.outcome = .error .connError ∧
      res.pmEvents = pmReport PMEvent.failure (effectiveProxies s kp)) ∧
    (∀ r0 : Response, dres = .ok r0 →
      res.pmEvents = pmReport PMEvent.success (effectiveProxies s kp)) := by
  obtain ⟨slp, s1, hthr, hres⟩ := request_inv _ _ _ _ _ _ _ _ hr
  have hs1 := throttle_ite_inv _ _ _ _ _ hthr
  have heff : effectiveProxies s1 kp = effectiveProxies s kp := by
    rw [hs1]
    cases kp <;> rfl
  subst hres
  constructor
  · rintro rfl
    refine ⟨rfl, ?_⟩
    show pmReport PMEvent.failure (effectiveProxies s1 kp) = _
    rw [heff]
  · rintro r0 rfl
    show (requestCore _ _ _ _ _).events = _
    rw [requestCore_ok]
    show pmReport PMEvent.success (effectiveProxies s1 kp) = _
    rw [heff]

/-- C10: the in-flight counter starts at 0 at construction, and since the
decrement in the `finally` block is guarded by `> 0`, a terminating call
keeps the counter non-negative. -/
theorem inflight_never_negative (s : Scraper) (kp : Option String)
    (skip : Bool) (now : ℚ) (dres : DispatchOutcome)
    (ph : Option (Response → Response))
    (solve : Variant → Response → Response) (res : ReqResult)
    (h0 : 0 ≤ s.current_concurrent_requests)
    (hr : request s kp skip now dres ph solve = some res) :
    ({} : Scraper).current_concurrent_requests = 0 ∧
    0 ≤ res.state.current_concurrent_requests := by
  refine ⟨rfl, ?_⟩
  rw [(request_counter_balance s kp skip now dres ph solve res h0 hr).1]
  exact h0

/-- C1 witness: a concrete session at the depth limit. -/
theorem loop_protection_resets_depth_w :
    runAtLimit.outcome = .error .loopProtection ∧
    runAtLimit.state.solveDepthCnt = 0 :=
  loop_protection_resets_depth scraperAtLimit none true 0 passResp none
    (fun _ r => r) runAtLimit (by decide) rfl

/-- C2 witness: a concrete pass-through response at depth 2. -/
theorem pass_through_resets_depth_w :
    runPass.state.solveDepthCnt = 0 ∧
    (scraperMid.solveDepthCnt < scraperMid.solveDepth →
      runPass.outcome = .ok (postApply none passResp)) :=
  pass_through_resets_depth scraperMid none true 0 passResp none
    (fun _ r => r) runPass (by decide) (by decide) (by decide) (by decide)
    rfl

/-- C3 witness: a concrete Turnstile-classified response on a fresh
session. -/
theorem first_match_invokes_solver_w :
    runChal.outcome = .ok chalResp ∧
    runChal.solvedVariant = some .turnstile ∧
    runChal.state.solveDepthCnt = 1 :=
  first_match_invokes_solver {} none true 0 chalResp none (fun _ r => r)
    runChal .turnstile (by decide) (by decide) rfl

/-- C4 witness: a concrete top-level throttled call. -/
theorem inflight_counter_accounting_w :
    runTop.inflightDuring = 1 ∧
    runTop.state.current_concurrent_requests = 0 ∧
    (false = false → ({} : Scraper).current_concurrent_requests = 0 →
      runTop.inflightDuring ≤ ({} : Scraper).max_concurrent_requests) :=
  inflight_counter_accounting {} none false 5 (.ok passResp) none
    (fun _ r => r) runTop (by decide) rfl

/-- C5 witness: a concrete nested call, never throttled. -/
theorem throttle_iff_top_level_w :
    (runNested.throttled = true ↔
      (false = false ∧ scraperNested.current_concurrent_requests ≤ 0)) ∧
    (0 < scraperNested.current_concurrent_requests →
      runNested.state.last_request_time = scraperNested.last_request_time) :=
  throttle_iff_top_level scraperNested none false 0 (.ok passResp) none
    (fun _ r => r) runNested rfl

/-- C6 witness: a fresh session half a second after its recorded dispatch
time. -/
theorem throttle_min_spacing_w :
    ∃ p : ℚ × Scraper, applyRequestThrottling {} (1 / 2) = some p ∧
      ({} : Scraper).min_request_interval ≤
        p.2.last_request_time - ({} : Scraper).last_request_time ∧
      ((1 / 2 : ℚ) - ({} : Scraper).last_request_time <
          ({} : Scraper).min_request_interval →
        p.1 = ({} : Scraper).min_request_interval -
          ((1 / 2 : ℚ) - ({} : Scraper).last_request_time)) ∧
      p.2.last_request_time = 1 / 2 + p.1 :=
  throttle_min_spacing {} (1 / 2) (by decide)

/-- C7 witness: a concrete proxied dispatch failing with a connection
error. -/
theorem proxy_reporting_w :
    (DispatchOutcome.connError = .connError →
      runConnErr.outcome = .error .connError ∧
      runConnErr.pmEvents = pmReport PMEvent.failure
        (effectiveProxies {} (some "http://proxy:8080"))) ∧
    (∀ r0 : Response, DispatchOutcome.connError = .ok r0 →
      runConnErr.pmEvents = pmReport PMEvent.success
        (effectiveProxies {} (some "http://proxy:8080"))) :=
  proxy_reporting {} (some "http://proxy:8080") true 0 .connError none
    (fun _ r => r) runConnErr rfl

/-- C10 witness: a concrete top-level call on a fresh session. -/
theorem inflight_never_negative_w :
    ({} : Scraper).current_concurrent_requests = 0 ∧
    0 ≤ runTop.state.current_concurrent_requests :=
  inflight_never_negative {} none false 5 (.ok passResp) none
    (fun _ r => r) runTop (by decide) rfl

/-- Folding a family of filters over a list of keys is one filter by the
conjunction over the keys. -/
theorem foldl_filter {α β : Type} (q : α → β → Bool) (ds : List α)
    (j : List β) :
    ds.foldl (fun acc d => acc.filter (q d)) j
      = j.filter (fun c => ds.all (fun d => q d c)) := by
  induction ds generalizing j with
  | nil => simp
  | cons d ds ih =>
    rw [List.foldl_cons, ih, List.filter_filter]
    apply List.filter_congr
    intro c _
    rw [List.all_cons]
    exact Bool.and_comm _ _

/-- A cookie's domain is listed by `list_domains` of any jar containing
it. -/
theorem mem_list_domains (jar : List Cookie) (c : Cookie) (hc : c ∈ jar) :
    c.domain ∈ list_domains jar := by
  unfold list_domains
  rw [List.mem_dedup]
  exact List.mem_map_of_mem Cookie.domain hc

/-- A list fails `all (not beq)` exactly when it contains the element. -/
theorem all_not_beq_eq_not_contains (ns : List String) (x : String) :
    ns.all (fun n => !(x == n)) = !(ns.contains x) := by
  induction ns with
  | nil => rfl
  | cons n ns ih => rw [List.all_cons, List.contains_cons, Bool.not_or, ih]

/-- Clearing one cookie name over every domain of the jar removes exactly
the cookies with that name whose path is `"/"`. -/
theorem clear_one_name (j : List Cookie) (nm : String) :
    (list_domains j).foldl (fun j2 d => jarClear j2 d "/" nm) j
      = j.filter (fun c => !(c.path == "/" && c.name == nm)) := by
  unfold jarClear
  rw [foldl_filter]
  apply List.filter_congr
  intro c hc
  have hd := mem_list_domains j c hc
  by_cases hpath : (c.path == "/") = true
  · by_cases hname : (c.name == nm) = true
    · simp only [hpath, hname, Bool.and_true]
      rw [List.all_eq_false.mpr ⟨c.domain, hd, by simp⟩]
      rfl
    · simp [hname]
  · simp [hpath]

/-- C8 (amended): `_clear_cloudflare_cookies` removes exactly the cookies
whose name is in the fixed protection set and whose path is `"/"`, across
every domain of the jar; every other cookie — including a protection cookie
stored under a different path — is untouched. -/
theorem clear_cookies_exact_set (jar : List Cookie) :
    clear_cloudflare_cookies jar
      = jar.filter
          (fun c => !(c.path == "/" && cf_cookie_names.contains c.name)) := by
  unfold clear_cloudflare_cookies
  rw [List.foldl_ext _
    (fun j nm => j.filter (fun c => !(c.path == "/" && c.name == nm))) jar
    (fun j nm _ => clear_one_name j nm)]
  rw [foldl_filter]
  apply List.filter_congr
  intro c _
  by_cases hpath : (c.path == "/") = true
  · simp only [hpath, Bool.true_and]
    exact all_not_beq_eq_not_contains cf_cookie_names c.name
  · simp [hpath]

/-- C8 counterexample: a protection cookie stored under path `"/x"` survives
the clearing pass, so the named set is not removed across every domain as
claimed. -/
theorem clear_cookies_counterexample :
    clear_cloudflare_cookies [⟨"example.com", "/x", "cf_clearance", "v"⟩]
      = [⟨"example.com", "/x", "cf_clearance", "v"⟩] ∧
    "cf_clearance" ∈ cf_cookie_names := by
  refine ⟨rfl, ?_⟩
  simp [cf_cookie_names]

/-- C9 (amended): the adapter's `source_address` validation raises
`TypeError` exactly for truthy values that are neither strings nor tuples; a
truthy string is accepted after conversion, any tuple — of any arity — is
accepted as-is, and a falsy value bypasses validation entirely. -/
theorem source_address_validation :
    (∀ v : PyVal, isErrorSA (initSourceAddress v)
      = (pyTruthy v && !v.isStr && !v.isTuple)) ∧
    (∀ a : String, ∀ p : Int,
      initSourceAddress (.vTuple [.vStr a, .vInt p])
        = .ok (.vTuple [.vStr a, .vInt p])) ∧
    (∀ a : String, ¬ a = "" →
      initSourceAddress (.vStr a) = .ok (.vTuple [.vStr a, .vInt 0])) := by
  refine ⟨fun v => ?_, fun a p => rfl, fun a ha => ?_⟩
  · cases v with
    | vNone => rfl
    | vStr a =>
      by_cases ha : (a == "") = true
      · unfold initSourceAddress pyTruthy
        dsimp only
        rw [ha]
        rfl
      · unfold initSourceAddress pyTruthy
        dsimp only
        rw [Bool.not_eq_true] at ha
        rw [ha]
        rfl
    | vInt n =>
      by_cases hn : (n == 0) = true
      · unfold initSourceAddress pyTruthy
        dsimp only
        rw [hn]
        rfl
      · unfold initSourceAddress pyTruthy
        dsimp only
        rw [Bool.not_eq_true] at hn
        rw [hn]
        rfl
    | vTuple es =>
      by_cases he : es.isEmpty = true
      · unfold initSourceAddress pyTruthy
        dsimp only
        rw [he]
        rfl
      · unfold initSourceAddress pyTruthy
        dsimp only
        rw [Bool.not_eq_true] at he
        rw [he]
        rfl
  · unfold initSourceAddress pyTruthy
    dsimp only
    have hb : (a == "") = false := beq_eq_false_iff_ne.mpr ha
    rw [hb]
    rfl

/-- C9 witness: an int raises, an (address, port) pair is accepted, and a
non-empty address string is converted and accepted. -/
theorem source_address_validation_w :
    isErrorSA (initSourceAddress (.vInt 5))
      = (pyTruthy (.vInt 5) && !(PyVal.vInt 5).isStr
          && !(PyVal.vInt 5).isTuple) ∧
    initSourceAddress (.vTuple [.vStr "1.2.3.4", .vInt 8080])
      = .ok (.vTuple [.vStr "1.2.3.4", .vInt 8080]) ∧
    initSourceAddress (.vStr "1.2.3.4")
      = .ok (.vTuple [.vStr "1.2.3.4", .vInt 0]) :=
  ⟨source_address_validation.1 (.vInt 5),
   source_address_validation.2.1 "1.2.3.4" 8080,
   source_address_validation.2.2 "1.2.3.4" (by decide)⟩

/-- C9 counterexample: a three-element tuple is not a recognized shape in
the specification's sense, yet the constructor accepts it without raising
`TypeError`. -/
theorem source_address_counterexample :
    specRecognizedShape (.vTuple [.vStr "1.2.3.4", .vStr "x", .vStr "y"])
      = false ∧
    initSourceAddress (.vTuple [.vStr "1.2.3.4", .vStr "x", .vStr "y"])
      = .ok (.vTuple [.vStr "1.2.3.4", .vStr "x", .vStr "y"]) := ⟨rfl, rfl⟩

end Cloudscraper
